import Mathlib

/-!
Verification of the query-builder and data-access layer of the GoodsChain user
service (internal/repository/user_repo.go, internal/models/user.go).

The Go code is shallowly embedded: machine integers become Int (Go division
truncates toward zero, so Int.tdiv models the Go / operator and a division by
zero is modelled as the runtime crash it is in Go), pointers that may be nil
become Option, and every call into the SQL driver becomes an explicit oracle
argument (a function from the query text and its bound arguments to the
response), because the repository code itself only ever sees the driver's
response.  Errors are the exact strings produced by the Go code's fmt.Errorf
calls, with the wrapped driver error appended the way %w appends it.
-/

namespace UserService

/-- A value bound as a positional or named query parameter. -/
inductive DBValue where
  | str (s : String)
  | bool (b : Bool)
  | time (t : Int)
  | int (i : Int)
  | uuid (u : Nat)
deriving DecidableEq, Repr

/-- internal/models/user.go: the User row.  Timestamps are modelled as Int
(nanoseconds since epoch); uuid.UUID as Nat. -/
structure User where
  id : Nat
  email : String
  fullName : String
  phone : Option String
  role : String
  isActive : Bool
  createdAt : Int
  updatedAt : Int
deriving DecidableEq, Repr

/-- internal/models/user.go: UpdateUserRequest, all five fields optional. -/
structure UpdateUserRequest where
  email : Option String
  fullName : Option String
  phone : Option String
  role : Option String
  isActive : Option Bool
deriving DecidableEq, Repr

/-- internal/models: FilterParams, eight optional filter dimensions. -/
structure FilterParams where
  role : Option String
  isActive : Option Bool
  search : Option String
  emailDomain : Option String
  createdFrom : Option Int
  createdTo : Option Int
  updatedFrom : Option Int
  updatedTo : Option Int
deriving DecidableEq, Repr

/-- internal/models: SortParams. -/
structure SortParams where
  field : String
  order : String
deriving DecidableEq, Repr

/-- internal/models: PaginationParams (Go int fields). -/
structure PaginationParams where
  page : Int
  pageSize : Int
  offset : Int
deriving DecidableEq, Repr

/-- internal/models: PaginationMetadata. -/
structure PaginationMetadata where
  page : Int
  pageSize : Int
  total : Int
  totalPages : Int
  hasNext : Bool
  hasPrev : Bool
deriving DecidableEq, Repr

/-- internal/models: GetUsersResponse. -/
structure GetUsersResponse where
  data : List User
  pagination : PaginationMetadata
deriving DecidableEq, Repr

/-- Outcome of a repository call: a returned value, a returned Go error
(its message string), or a runtime crash (nil-pointer dereference or integer
division by zero), which in Go is a panic rather than a returned error. -/
inductive RepoResult (α : Type) where
  | ok (a : α)
  | err (msg : String)
  | crash (msg : String)
deriving DecidableEq, Repr

/-- The Go loop that joins clause parts: for each part after the first, the
separator is appended first (user_repo.go lines 121-127 and 300-306). -/
def goJoin (sep : String) (parts : List String) : String :=
  parts.enum.foldl (fun acc p => (if p.1 > 0 then acc ++ sep else acc) ++ p.2) ""

/-- The state of buildWhereClause while scanning the filter fields:
(conditions, args, argCount), as in user_repo.go lines 240-242. -/
abbrev WhereState := List String × List DBValue × Nat

/-- One if-block of buildWhereClause (user_repo.go lines 248-294): when the
block's guard holds (the contribution is some), argCount is incremented, the
block's condition is appended with the new argCount as placeholder index, and
the block's value is appended to args; otherwise the state is unchanged. -/
def whereStep (st : WhereState) (c : Option ((Nat → String) × DBValue)) :
    WhereState :=
  match c with
  | some p => (st.1 ++ [p.1 (st.2.2 + 1)], st.2.1 ++ [p.2], st.2.2 + 1)
  | none => st

/-- The eight guarded contributions of buildWhereClause, one per if-block, in
source order (user_repo.go lines 248-294): condition strings and bound values
verbatim; search and emailDomain contribute only when the dereferenced string
is non-empty. -/
def whereContribs (f : FilterParams) : List (Option ((Nat → String) × DBValue)) :=
  [ f.role.map (fun v => (fun n => s!"role = ${n}", DBValue.str v)),
    f.isActive.map (fun v => (fun n => s!"is_active = ${n}", DBValue.bool v)),
    (match f.search with
     | some s =>
         if s != "" then
           some (fun n => s!"(LOWER(full_name) LIKE LOWER(${n}) OR LOWER(email) LIKE LOWER(${n}))",
                 DBValue.str ("%" ++ s ++ "%"))
         else none
     | none => none),
    (match f.emailDomain with
     | some d =>
         if d != "" then
           some (fun n => s!"email LIKE ${n}", DBValue.str ("%@" ++ d ++ "%"))
         else none
     | none => none),
    f.createdFrom.map (fun t => (fun n => s!"created_at >= ${n}", DBValue.time t)),
    f.createdTo.map (fun t => (fun n => s!"created_at <= ${n}", DBValue.time t)),
    f.updatedFrom.map (fun t => (fun n => s!"updated_at >= ${n}", DBValue.time t)),
    f.updatedTo.map (fun t => (fun n => s!"updated_at <= ${n}", DBValue.time t)) ]

/-- user_repo.go lines 239-309, buildWhereClause: a nil filter contributes
nothing; otherwise the eight if-blocks run in order on the initial state
(nil conditions, nil args, argCount 0), and the conditions are joined with
AND, the empty-conditions case returning the empty expression. -/
def buildWhereClause (filters : Option FilterParams) : String × List DBValue :=
  match filters with
  | none => ("", [])
  | some filters =>
    let st := (whereContribs filters).foldl whereStep ([], [], 0)
    if st.1.length = 0 then ("", st.2.1)
    else (goJoin " AND " st.1, st.2.1)

/-- user_repo.go lines 317-326: the sort-field allow-list, an identity map
from accepted field names to column names. -/
def fieldMap : List (String × String) :=
  [("id", "id"), ("email", "email"), ("full_name", "full_name"),
   ("role", "role"), ("is_active", "is_active"),
   ("created_at", "created_at"), ("updated_at", "updated_at")]

/-- user_repo.go lines 312-339, buildOrderClause. -/
def buildOrderClause (sort : Option SortParams) : String :=
  match sort with
  | none => "ORDER BY created_at ASC"
  | some sort =>
    let field := match fieldMap.lookup sort.field with
      | some f => f
      | none => "created_at"
    let order := if sort.order = "desc" then "DESC" else "ASC"
    s!"ORDER BY {field} {order}"

/-- user_repo.go lines 33-60, CreateUser.  uuid.New() becomes the argument
uuidNew; the two successive time.Now() calls on lines 35 and 36 become the
two arguments now1 and now2; the NamedQueryContext insert becomes the oracle
db, which receives the row sent to the store and answers with an error, with
no returned row, or with the scanned returned row. -/
def CreateUser (uuidNew : Nat) (now1 now2 : Int)
    (db : User → Except String (Option User)) (user : User) :
    Except String User :=
  let user := { user with id := uuidNew, createdAt := now1,
                          updatedAt := now2, isActive := true }
  match db user with
  | .error e => .error ("failed to insert user: " ++ e)
  | .ok none => .error "no user returned after insert"
  | .ok (some createdUser) => .ok createdUser

/-- user_repo.go lines 76-151, UpdateUser.  The existence check (GetContext on
SELECT id) becomes the oracle argument check; the NamedQueryContext that runs
the assembled UPDATE becomes the oracle exec, receiving the query text and the
named-argument list.  The named args are kept in insertion order. -/
def UpdateUser (check : Except String Unit) (now : Int)
    (exec : String → List (String × DBValue) → Except String (Option User))
    (id : Nat) (updates : UpdateUserRequest) : Except String User :=
  match check with
  | .error e => .error ("user not found: " ++ e)
  | .ok _ =>
    let setParts : List String := []
    let args : List (String × DBValue) :=
      [("id", DBValue.uuid id), ("updated_at", DBValue.time now)]
    let (setParts, args) := match updates.email with
      | some v => (setParts ++ ["email = :email"], args ++ [("email", DBValue.str v)])
      | none => (setParts, args)
    let (setParts, args) := match updates.fullName with
      | some v => (setParts ++ ["full_name = :full_name"], args ++ [("full_name", DBValue.str v)])
      | none => (setParts, args)
    let (setParts, args) := match updates.phone with
      | some v => (setParts ++ ["phone = :phone"], args ++ [("phone", DBValue.str v)])
      | none => (setParts, args)
    let (setParts, args) := match updates.role with
      | some v => (setParts ++ ["role = :role"], args ++ [("role", DBValue.str v)])
      | none => (setParts, args)
    let (setParts, args) := match updates.isActive with
      | some v => (setParts ++ ["is_active = :is_active"], args ++ [("is_active", DBValue.bool v)])
      | none => (setParts, args)
    let setParts := setParts ++ ["updated_at = :updated_at"]
    if setParts.length = 1 then
      .error "no fields to update"
    else
      let setClause := goJoin ", " setParts
      let query := "UPDATE users \n\t\tSET " ++ setClause ++ " \n\t\tWHERE id = :id\n\t\tRETURNING id, email, full_name, phone, role, is_active, created_at, updated_at"
      match exec query args with
      | .error e => .error ("failed to update user: " ++ e)
      | .ok none => .error "no user returned after update"
      | .ok (some updatedUser) => .ok updatedUser

/-- user_repo.go lines 154-180, DeleteUser.  The initial row fetch becomes the
oracle fetch; ExecContext on the DELETE becomes the oracle execDel, whose ok
payload is in turn the outcome of result.RowsAffected() (an error when the
affected-row count cannot be determined, else the count). -/
def DeleteUser (fetch : Except String User)
    (execDel : Except String (Except String Int)) (id : Nat) :
    Except String User :=
  match fetch with
  | .error e => .error ("user not found: " ++ e)
  | .ok userToDelete =>
    match execDel with
    | .error e => .error ("failed to delete user: " ++ e)
    | .ok rowsAffectedResult =>
      match rowsAffectedResult with
      | .error e => .error ("failed to get rows affected: " ++ e)
      | .ok rowsAffected =>
        if rowsAffected = 0 then .error "user not found"
        else .ok userToDelete

/-- user_repo.go lines 183-236, GetAllUsers.  The two driver calls become the
oracles cnt (GetContext on the count query) and sel (SelectContext on the data
query), each receiving the query text and positional arguments.  The nil
dereference of pagination on line 208 and the Go panic on integer division by
zero on line 218 are modelled as RepoResult.crash. -/
def GetAllUsers (cnt : String → List DBValue → Except String Int)
    (sel : String → List DBValue → Except String (List User))
    (filters : Option FilterParams) (sort : Option SortParams)
    (pagination : Option PaginationParams) : RepoResult GetUsersResponse :=
  let baseQuery := "SELECT id, email, full_name, phone, role, is_active, created_at, updated_at FROM users"
  let countQuery := "SELECT COUNT(*) FROM users"
  let wa := buildWhereClause filters
  let whereClause := wa.1
  let args := wa.2
  let baseQuery := if whereClause != "" then baseQuery ++ " WHERE " ++ whereClause else baseQuery
  let countQuery := if whereClause != "" then countQuery ++ " WHERE " ++ whereClause else countQuery
  match cnt countQuery args with
  | .error e => .err ("failed to get total count: " ++ e)
  | .ok total =>
    let orderClause := buildOrderClause sort
    let baseQuery := baseQuery ++ " " ++ orderClause
    let baseQuery := baseQuery ++ " LIMIT $" ++ toString (args.length + 1)
                       ++ " OFFSET $" ++ toString (args.length + 2)
    match pagination with
    | none => .crash "runtime error: invalid memory address or nil pointer dereference"
    | some pagination =>
      let args := args ++ [DBValue.int pagination.pageSize, DBValue.int pagination.offset]
      match sel baseQuery args with
      | .error e => .err ("failed to get users: " ++ e)
      | .ok users =>
        if pagination.pageSize = 0 then
          .crash "runtime error: integer divide by zero"
        else
          let totalPages := (total + pagination.pageSize - 1).tdiv pagination.pageSize
          let totalPages := if totalPages = 0 then 1 else totalPages
          .ok { data := users
                pagination :=
                  { page := pagination.page
                    pageSize := pagination.pageSize
                    total := total
                    totalPages := totalPages
                    hasNext := pagination.page < totalPages
                    hasPrev := pagination.page > 1 } }

/-! ## Spec-side definitions

The definitions below restate the query-builder contract in the spec's own
vocabulary (section 4.1): an ordered list of filter dimensions, one condition
template per dimension, positional placeholders numbered from 1, arguments in
the same order.  They are compared with buildWhereClause, which was translated
from the code. -/

/-- The eight filter dimensions, in the spec's fixed order. -/
inductive FilterField where
  | role | isActive | search | emailDomain
  | createdFrom | createdTo | updatedFrom | updatedTo
deriving DecidableEq, Repr

/-- The condition contributed by one filter dimension when its bound value has
positional index n.  From the spec: equality for role and isActive, one
case-insensitive OR re-using a single parameter for search, a LIKE for
emailDomain, and inclusive bounds for the four date fields. -/
def condTemplate : FilterField → Nat → String
  | .role, n => s!"role = ${n}"
  | .isActive, n => s!"is_active = ${n}"
  | .search, n => s!"(LOWER(full_name) LIKE LOWER(${n}) OR LOWER(email) LIKE LOWER(${n}))"
  | .emailDomain, n => s!"email LIKE ${n}"
  | .createdFrom, n => s!"created_at >= ${n}"
  | .createdTo, n => s!"created_at <= ${n}"
  | .updatedFrom, n => s!"updated_at >= ${n}"
  | .updatedTo, n => s!"updated_at <= ${n}"

/-- The dimensions that contribute a condition, in the spec's fixed order:
a field contributes when it is set, and search and emailDomain additionally
require a non-empty string (spec section 4.1). -/
def activeFields (f : FilterParams) : List FilterField :=
  (match f.role with | some _ => [FilterField.role] | none => []) ++
  (match f.isActive with | some _ => [FilterField.isActive] | none => []) ++
  (match f.search with
   | some s => if s != "" then [FilterField.search] else []
   | none => []) ++
  (match f.emailDomain with
   | some d => if d != "" then [FilterField.emailDomain] else []
   | none => []) ++
  (match f.createdFrom with | some _ => [FilterField.createdFrom] | none => []) ++
  (match f.createdTo with | some _ => [FilterField.createdTo] | none => []) ++
  (match f.updatedFrom with | some _ => [FilterField.updatedFrom] | none => []) ++
  (match f.updatedTo with | some _ => [FilterField.updatedTo] | none => [])

/-- The bound argument values, one per active dimension, in the same order:
the raw value for role and isActive, the %value% wildcard for search, the
%@domain% wildcard for emailDomain, the raw bounds for the date fields. -/
def specArgs (f : FilterParams) : List DBValue :=
  (match f.role with | some v => [DBValue.str v] | none => []) ++
  (match f.isActive with | some v => [DBValue.bool v] | none => []) ++
  (match f.search with
   | some s => if s != "" then [DBValue.str ("%" ++ s ++ "%")] else []
   | none => []) ++
  (match f.emailDomain with
   | some d => if d != "" then [DBValue.str ("%@" ++ d ++ "%")] else []
   | none => []) ++
  (match f.createdFrom with | some t => [DBValue.time t] | none => []) ++
  (match f.createdTo with | some t => [DBValue.time t] | none => []) ++
  (match f.updatedFrom with | some t => [DBValue.time t] | none => []) ++
  (match f.updatedTo with | some t => [DBValue.time t] | none => [])

/-- The conditions for a list of active dimensions: one condition per
dimension, placeholders numbered by position starting at 1 and incrementing
by one per bound value. -/
def condsOfTags (ts : List FilterField) : List String :=
  ts.enum.map (fun p => condTemplate p.2 (p.1 + 1))

/-- One condition per active dimension of the filter, in the fixed order. -/
def specConds (f : FilterParams) : List String :=
  condsOfTags (activeFields f)

/-- The spec's description of the whole filter expression: the active
conditions joined with AND, next to the argument list. -/
def specWhereClause (f : FilterParams) : String × List DBValue :=
  (goJoin " AND " (specConds f), specArgs f)

/-- The frozen claim C5 reads every present (non-nil) field as contributing a
condition, with no non-emptiness proviso for search and emailDomain.  This is
that reading, used to exhibit the input on which it diverges from the code. -/
def presentFields (f : FilterParams) : List FilterField :=
  (match f.role with | some _ => [FilterField.role] | none => []) ++
  (match f.isActive with | some _ => [FilterField.isActive] | none => []) ++
  (match f.search with | some _ => [FilterField.search] | none => []) ++
  (match f.emailDomain with | some _ => [FilterField.emailDomain] | none => []) ++
  (match f.createdFrom with | some _ => [FilterField.createdFrom] | none => []) ++
  (match f.createdTo with | some _ => [FilterField.createdTo] | none => []) ++
  (match f.updatedFrom with | some _ => [FilterField.updatedFrom] | none => []) ++
  (match f.updatedTo with | some _ => [FilterField.updatedTo] | none => [])

/-- Argument list under the per-present-field reading of claim C5. -/
def presentArgs (f : FilterParams) : List DBValue :=
  (match f.role with | some v => [DBValue.str v] | none => []) ++
  (match f.isActive with | some v => [DBValue.bool v] | none => []) ++
  (match f.search with | some s => [DBValue.str ("%" ++ s ++ "%")] | none => []) ++
  (match f.emailDomain with | some d => [DBValue.str ("%@" ++ d ++ "%")] | none => []) ++
  (match f.createdFrom with | some t => [DBValue.time t] | none => []) ++
  (match f.createdTo with | some t => [DBValue.time t] | none => []) ++
  (match f.updatedFrom with | some t => [DBValue.time t] | none => []) ++
  (match f.updatedTo with | some t => [DBValue.time t] | none => [])

/-- The filter expression under the per-present-field reading of claim C5. -/
def presentWhereClause (f : FilterParams) : String × List DBValue :=
  (goJoin " AND " ((presentFields f).enum.map (fun p => condTemplate p.2 (p.1 + 1))),
   presentArgs f)

/-- The search condition with bound-parameter index n, as the code emits it. -/
def searchCond (n : Nat) : String :=
  s!"(LOWER(full_name) LIKE LOWER(${n}) OR LOWER(email) LIKE LOWER(${n}))"

/-- Structural prefix test on character lists. -/
def leadsWith : List Char → List Char → Bool
  | [], _ => true
  | _ :: _, [] => false
  | a :: as, b :: bs => a == b && leadsWith as bs

/-- Recognizes the search condition among the emitted conditions (it is the
only parenthesized, LOWER-wrapped one). -/
def isSearchCond (c : String) : Bool :=
  leadsWith "(LOWER(full_name) LIKE LOWER($".data c.data

/-- Scans a character list for positional placeholders: every maximal run of
digits right after a dollar sign yields that number, in order of appearance.
The accumulator holds the digits of the placeholder currently being read. -/
def scanPlaceholders : List Char → Option Nat → List Nat
  | [], none => []
  | [], some n => [n]
  | c :: cs, none =>
      if c = '$' then scanPlaceholders cs (some 0) else scanPlaceholders cs none
  | c :: cs, some n =>
      if c.isDigit then scanPlaceholders cs (some (10 * n + (c.toNat - 48)))
      else if c = '$' then n :: scanPlaceholders cs (some 0)
      else n :: scanPlaceholders cs none

/-- The positional placeholder indices appearing in a query fragment, in
textual order. -/
def placeholderIndices (s : String) : List Nat :=
  scanPlaceholders s.data none

/-- The placeholder multiset claim C10 asserts: indices 1 through n in order,
with the search argument's index (when there is one) appearing twice. -/
def expectedPlaceholders (n : Nat) (searchIdx : Option Nat) : List Nat :=
  (List.range' 1 n).flatMap (fun i => if searchIdx = some i then [i, i] else [i])

/-- The positional index of the search argument when search is active: one
more than the number of active dimensions preceding it (role, isActive). -/
def searchIdxOf (f : FilterParams) : Option Nat :=
  match f.search with
  | some s =>
      if s != "" then
        some ((match f.role with | some _ => 1 | none => 0) +
              (match f.isActive with | some _ => 1 | none => 0) + 1)
      else none
  | none => none

/-- Structural substring test on character lists. -/
def containsChars (pat : List Char) : List Char → Bool
  | [] => leadsWith pat []
  | c :: cs => leadsWith pat (c :: cs) || containsChars pat cs

/-- True when a query string does not contain the token WHERE. -/
def noWhere (q : String) : Bool :=
  !(containsChars "WHERE".data q.data)

/-- The eight dimensions in the builder's fixed order. -/
def masterTags : List FilterField :=
  [.role, .isActive, .search, .emailDomain,
   .createdFrom, .createdTo, .updatedFrom, .updatedTo]

/-- The positional index of the search condition within a tag list. -/
def searchIdxOfTags (ts : List FilterField) : Option Nat :=
  if FilterField.search ∈ ts then some (ts.indexOf FilterField.search + 1)
  else none

/-! ## Closed form of the condition builder

The fold of whereStep over the guarded contributions is computed in closed
form: the conditions are the contributions numbered consecutively from the
starting argCount, the args are their values in order, and argCount grows by
the number of contributions that fired. -/

/-- Conditions produced by a contribution list starting at argCount n. -/
def numberFromO (n : Nat) : List (Option ((Nat → String) × DBValue)) → List String
  | [] => []
  | none :: t => numberFromO n t
  | some p :: t => p.1 (n + 1) :: numberFromO (n + 1) t

/-- Values produced by a contribution list, in order. -/
def valuesO : List (Option ((Nat → String) × DBValue)) → List DBValue
  | [] => []
  | none :: t => valuesO t
  | some p :: t => p.2 :: valuesO t

/-- Number of contributions that fire. -/
def countO : List (Option ((Nat → String) × DBValue)) → Nat
  | [] => 0
  | none :: t => countO t
  | some _ :: t => countO t + 1

/-- Conditions of a tag list numbered consecutively from n + 1. -/
def numberFromTags (n : Nat) : List FilterField → List String
  | [] => []
  | t :: ts => condTemplate t (n + 1) :: numberFromTags (n + 1) ts

theorem foldl_whereStep (l : List (Option ((Nat → String) × DBValue))) :
    ∀ c a n, l.foldl whereStep (c, a, n) =
      (c ++ numberFromO n l, a ++ valuesO l, n + countO l) := by
  induction l with
  | nil => intro c a n; simp [numberFromO, valuesO, countO]
  | cons h t ih =>
    intro c a n
    cases h with
    | none => simpa [numberFromO, valuesO, countO, whereStep] using ih c a n
    | some p =>
      simp only [List.foldl_cons, whereStep]
      rw [ih]
      simp [numberFromO, valuesO, countO, List.append_assoc]
      omega

theorem length_numberFromO (l : List (Option ((Nat → String) × DBValue))) :
    ∀ n, (numberFromO n l).length = countO l := by
  induction l with
  | nil => intro n; rfl
  | cons h t ih =>
    intro n
    cases h with
    | none => simpa [numberFromO, countO] using ih n
    | some p => simp [numberFromO, countO, ih]

theorem length_valuesO (l : List (Option ((Nat → String) × DBValue))) :
    (valuesO l).length = countO l := by
  induction l with
  | nil => rfl
  | cons h t ih =>
    cases h with
    | none => simpa [valuesO, countO] using ih
    | some p => simp [valuesO, countO, ih]

theorem length_numberFromTags (ts : List FilterField) :
    ∀ n, (numberFromTags n ts).length = ts.length := by
  induction ts with
  | nil => intro n; rfl
  | cons h t ih => intro n; simp [numberFromTags, ih]

theorem condsOfTags_eq_numberFromTags (ts : List FilterField) :
    condsOfTags ts = numberFromTags 0 ts := by
  have aux : ∀ us n, (List.enumFrom n us).map (fun p => condTemplate p.2 (p.1 + 1))
      = numberFromTags n us := by
    intro us
    induction us with
    | nil => intro n; rfl
    | cons h t ih => intro n; simp [List.enumFrom, numberFromTags, ih]
  simpa [condsOfTags, List.enum] using aux ts 0

theorem numberFromO_whereContribs (f : FilterParams) (n : Nat) :
    numberFromO n (whereContribs f) = numberFromTags n (activeFields f) := by
  obtain ⟨r, a, s, d, cf, ct, uf, ut⟩ := f
  rcases r with _ | r <;> rcases a with _ | a <;> rcases s with _ | s <;>
    rcases d with _ | d <;> rcases cf with _ | cf <;> rcases ct with _ | ct <;>
    rcases uf with _ | uf <;> rcases ut with _ | ut <;>
    simp only [whereContribs, activeFields, Option.map_some, Option.map_none] <;>
    (repeat' split) <;> first | rfl | contradiction

theorem valuesO_whereContribs (f : FilterParams) :
    valuesO (whereContribs f) = specArgs f := by
  obtain ⟨r, a, s, d, cf, ct, uf, ut⟩ := f
  rcases r with _ | r <;> rcases a with _ | a <;> rcases s with _ | s <;>
    rcases d with _ | d <;> rcases cf with _ | cf <;> rcases ct with _ | ct <;>
    rcases uf with _ | uf <;> rcases ut with _ | ut <;>
    simp only [whereContribs, specArgs, Option.map_some, Option.map_none] <;>
    (repeat' split) <;> first | rfl | contradiction

/-- The sort-field allow-list, as field names. -/
def allowedSortFields : List String :=
  ["id", "email", "full_name", "role", "is_active", "created_at", "updated_at"]

theorem lookup_fieldMap (k : String) :
    fieldMap.lookup k = if k ∈ allowedSortFields then some k else none := by
  by_cases h1 : k = "id"
  · subst h1; rfl
  by_cases h2 : k = "email"
  · subst h2; rfl
  by_cases h3 : k = "full_name"
  · subst h3; rfl
  by_cases h4 : k = "role"
  · subst h4; rfl
  by_cases h5 : k = "is_active"
  · subst h5; rfl
  by_cases h6 : k = "created_at"
  · subst h6; rfl
  by_cases h7 : k = "updated_at"
  · subst h7; rfl
  have b1 : (k == "id") = false := beq_false_of_ne h1
  have b2 : (k == "email") = false := beq_false_of_ne h2
  have b3 : (k == "full_name") = false := beq_false_of_ne h3
  have b4 : (k == "role") = false := beq_false_of_ne h4
  have b5 : (k == "is_active") = false := beq_false_of_ne h5
  have b6 : (k == "created_at") = false := beq_false_of_ne h6
  have b7 : (k == "updated_at") = false := beq_false_of_ne h7
  simp [fieldMap, allowedSortFields, List.lookup, b1, b2, b3, b4, b5, b6, b7,
        h1, h2, h3, h4, h5, h6, h7]

/-! ## Claim theorems -/

/-- C1.  For any id and an UpdateUserRequest with all five settable fields
absent, UpdateUser reports not-found when the existence check fails, for
every possible update-executing store; and when the existence check succeeds
it reports the no-fields-to-update error, again for every store — so the
existence check precedes the empty-fields check, and the always-added
updatedAt assignment alone never counts as a settable field. -/
theorem updateUser_empty_request_order (now : Int)
    (exec : String → List (String × DBValue) → Except String (Option User))
    (id : Nat) (updates : UpdateUserRequest)
    (h1 : updates.email = none) (h2 : updates.fullName = none)
    (h3 : updates.phone = none) (h4 : updates.role = none)
    (h5 : updates.isActive = none) :
    (∀ e, UpdateUser (Except.error e) now exec id updates
        = Except.error ("user not found: " ++ e)) ∧
    UpdateUser (Except.ok ()) now exec id updates
        = Except.error "no fields to update" := by
  obtain ⟨e1, e2, e3, e4, e5⟩ := updates
  cases h1; cases h2; cases h3; cases h4; cases h5
  exact ⟨fun e => rfl, rfl⟩

/-- Witness for C1: concrete empty update request against both store
answers. -/
theorem updateUser_empty_request_order_witness :
    UpdateUser (Except.error "sql: no rows in result set") 0
        (fun _ _ => Except.ok none) 5 ⟨none, none, none, none, none⟩
        = Except.error "user not found: sql: no rows in result set" ∧
    UpdateUser (Except.ok ()) 0 (fun _ _ => Except.ok none) 5
        ⟨none, none, none, none, none⟩
        = Except.error "no fields to update" :=
  ⟨(updateUser_empty_request_order 0 (fun _ _ => Except.ok none) 5
      ⟨none, none, none, none, none⟩ rfl rfl rfl rfl rfl).1
      "sql: no rows in result set",
   (updateUser_empty_request_order 0 (fun _ _ => Except.ok none) 5
      ⟨none, none, none, none, none⟩ rfl rfl rfl rfl rfl).2⟩

/-- C4 counterexample input: a user object arriving with pre-populated id,
timestamps and isActive. -/
def u0 : User :=
  { id := 7, email := "a@x.com", fullName := "A", phone := none,
    role := "staff", isActive := false, createdAt := 99, updatedAt := 99 }

/-- C4 counterexample output: what CreateUser persists for u0 when the two
successive clock readings are 0 and 1. -/
def createdU0 : User :=
  { id := 42, email := "a@x.com", fullName := "A", phone := none,
    role := "staff", isActive := true, createdAt := 0, updatedAt := 1 }

/-- C4 counterexample.  CreateUser reads the clock twice (user_repo.go lines
35-36); on a run where the two readings are 0 and 1, the persisted record has
createdAt 0 and updatedAt 1, refuting the claim that createdAt and updatedAt
always equal one single current time on the created record. -/
theorem createUser_clock_counterexample :
    CreateUser 42 0 1 (fun u => Except.ok (some u)) u0 = Except.ok createdU0 ∧
    createdU0.createdAt ≠ createdU0.updatedAt := by
  exact ⟨rfl, by decide⟩

/-- C4 amended.  CreateUser overwrites the caller-supplied id, createdAt,
updatedAt and isActive before persisting: against a store that returns the
inserted row, the result has the freshly generated id, isActive true,
createdAt equal to the first clock reading and updatedAt equal to the second,
irrespective of the values pre-populated on the input; the two timestamps
coincide exactly when the two clock readings do. -/
theorem createUser_overwrites (uuidNew : Nat) (t1 t2 : Int) (user : User) :
    CreateUser uuidNew t1 t2 (fun u => Except.ok (some u)) user
      = Except.ok { user with id := uuidNew, createdAt := t1,
                              updatedAt := t2, isActive := true } := rfl

/-- C7.  buildOrderClause never errors and never passes an unrecognized field
name through: absent sort yields the default ordering on created_at ascending;
a field outside the allow-list is replaced by created_at; the direction is
DESC exactly when the order string is the exact value desc, else ASC. -/
theorem orderClause_spec :
    buildOrderClause none = "ORDER BY created_at ASC" ∧
    ∀ s : SortParams,
      buildOrderClause (some s)
        = "ORDER BY "
            ++ (if s.field ∈ allowedSortFields then s.field else "created_at")
            ++ (if s.order = "desc" then " DESC" else " ASC") := by
  refine ⟨rfl, ?_⟩
  rintro ⟨fld, ord⟩
  simp only [buildOrderClause, lookup_fieldMap]
  by_cases hf : fld ∈ allowedSortFields
  · rw [if_pos hf, if_pos hf]
    have hf2 := hf
    simp only [allowedSortFields, List.mem_cons, List.not_mem_nil, or_false] at hf2
    rcases hf2 with h | h | h | h | h | h | h <;> subst h <;>
      (by_cases ho : ord = "desc"
       · subst ho; rfl
       · rw [if_neg ho, if_neg ho]; rfl)
  · rw [if_neg hf, if_neg hf]
    by_cases ho : ord = "desc"
    · subst ho; rfl
    · rw [if_neg ho, if_neg ho]; rfl

/-- C9.  DeleteUser first fetches the row, failing with the not-found error
when the fetch fails; a store error during the delete yields the delete
failure; an undeterminable affected-row count yields the distinct
rows-affected failure; zero affected rows yields the plain not-found error
(no separate concurrency error); and on success the previously fetched row is
returned unchanged. -/
theorem deleteUser_flow :
    (∀ (e : String) execDel (id : Nat),
        DeleteUser (Except.error e) execDel id
          = Except.error ("user not found: " ++ e)) ∧
    (∀ (u : User) (e : String) (id : Nat),
        DeleteUser (Except.ok u) (Except.error e) id
          = Except.error ("failed to delete user: " ++ e)) ∧
    (∀ (u : User) (e : String) (id : Nat),
        DeleteUser (Except.ok u) (Except.ok (Except.error e)) id
          = Except.error ("failed to get rows affected: " ++ e)) ∧
    (∀ (u : User) (n : Int) (id : Nat),
        DeleteUser (Except.ok u) (Except.ok (Except.ok n)) id
          = if n = 0 then Except.error "user not found" else Except.ok u) :=
  ⟨fun _ _ _ => rfl, fun _ _ _ => rfl, fun _ _ _ => rfl, fun _ _ _ => rfl⟩

/-- Closed form of buildWhereClause on a present filter: the active
dimensions' conditions, numbered positionally and joined with AND, next to
their bound values in the same order. -/
theorem whereClause_closed (f : FilterParams) :
    buildWhereClause (some f)
      = (goJoin " AND " (condsOfTags (activeFields f)), specArgs f) := by
  simp only [buildWhereClause, foldl_whereStep, List.nil_append,
             numberFromO_whereContribs, valuesO_whereContribs]
  rw [condsOfTags_eq_numberFromTags]
  split
  · next h =>
      rw [List.length_eq_zero] at h
      rw [h]
      rfl
  · rfl

theorem activeFields_sublist (f : FilterParams) :
    (activeFields f).Sublist masterTags := by
  unfold activeFields
  show List.Sublist _ ((((((([FilterField.role] ++ [FilterField.isActive])
      ++ [FilterField.search]) ++ [FilterField.emailDomain])
      ++ [FilterField.createdFrom]) ++ [FilterField.createdTo])
      ++ [FilterField.updatedFrom]) ++ [FilterField.updatedTo])
  refine List.Sublist.append (List.Sublist.append (List.Sublist.append
    (List.Sublist.append (List.Sublist.append (List.Sublist.append
    (List.Sublist.append ?_ ?_) ?_) ?_) ?_) ?_) ?_) ?_
  · cases f.role <;> simp
  · cases f.isActive <;> simp
  · rcases f.search with _ | s
    · simp
    · dsimp only; split <;> simp
  · rcases f.emailDomain with _ | d
    · simp
    · dsimp only; split <;> simp
  · cases f.createdFrom <;> simp
  · cases f.createdTo <;> simp
  · cases f.updatedFrom <;> simp
  · cases f.updatedTo <;> simp

/-- The pattern-level facts for one active-dimension subset, as one boolean
check: placeholders are exactly 1..n in order with the search index doubled,
the joined expression is empty exactly for the empty subset, and the
conditions contain exactly one search condition when search is active, none
otherwise. -/
def tagsFactOk (ts : List FilterField) : Bool :=
  (placeholderIndices (goJoin " AND " (condsOfTags ts))
      == expectedPlaceholders ts.length (searchIdxOfTags ts)) &&
  ((goJoin " AND " (condsOfTags ts) == "") == ts.isEmpty) &&
  ((condsOfTags ts).filter isSearchCond
      == match searchIdxOfTags ts with
         | some n => [searchCond n]
         | none => [])

set_option maxRecDepth 40000 in
set_option maxHeartbeats 2000000 in
/-- The check holds over all 256 possible active-dimension subsets. -/
theorem whereTags_facts_bool : masterTags.sublists.all tagsFactOk = true := by
  decide

/-- Pattern-level facts in propositional form, from the boolean check. -/
theorem whereTags_facts :
    ∀ ts ∈ masterTags.sublists,
      (placeholderIndices (goJoin " AND " (condsOfTags ts))
         = expectedPlaceholders ts.length (searchIdxOfTags ts)) ∧
      ((goJoin " AND " (condsOfTags ts) = "") ↔ ts = []) ∧
      ((condsOfTags ts).filter isSearchCond
         = match searchIdxOfTags ts with
           | some n => [searchCond n]
           | none => []) := by
  intro ts hts
  have h := List.all_eq_true.mp whereTags_facts_bool ts hts
  simp only [tagsFactOk, Bool.and_eq_true] at h
  obtain ⟨⟨h1, h2⟩, h3⟩ := h
  refine ⟨beq_iff_eq.mp h1, ?_, beq_iff_eq.mp h3⟩
  have h2b : (goJoin " AND " (condsOfTags ts) == "") = ts.isEmpty :=
    beq_iff_eq.mp h2
  constructor
  · intro hg
    have hemp : ts.isEmpty = true := by
      rw [← h2b]; exact beq_iff_eq.mpr hg
    simpa using hemp
  · intro hempty
    subst hempty
    simpa using h2b

theorem searchIdxOf_align (f : FilterParams) :
    searchIdxOf f = searchIdxOfTags (activeFields f) := by
  obtain ⟨r, a, s, d, cf, ct, uf, ut⟩ := f
  rcases r with _ | r <;> rcases a with _ | a <;> rcases s with _ | s <;>
    rcases d with _ | d <;> rcases cf with _ | cf <;> rcases ct with _ | ct <;>
    rcases uf with _ | uf <;> rcases ut with _ | ut <;>
    simp only [searchIdxOf, activeFields] <;>
    (repeat' split) <;> first | rfl | contradiction

theorem specArgs_length (f : FilterParams) :
    (specArgs f).length = (activeFields f).length := by
  have h1 := valuesO_whereContribs f
  have h2 := numberFromO_whereContribs f 0
  have h3 := length_valuesO (whereContribs f)
  have h4 := length_numberFromO (whereContribs f) 0
  have h5 := length_numberFromTags (activeFields f) 0
  rw [← h1, h3, ← h4, h2, h5]

theorem activeFields_mem_sublists (f : FilterParams) :
    activeFields f ∈ masterTags.sublists :=
  List.mem_sublists.mpr (activeFields_sublist f)

/-- C5 counterexample.  On a filter whose search field is present but empty,
the per-present-field reading of the claim demands a search condition and a
bound argument, while the code emits the empty expression and no argument. -/
theorem whereClause_present_counterexample :
    buildWhereClause (some ⟨none, none, some "", none, none, none, none, none⟩)
      ≠ presentWhereClause ⟨none, none, some "", none, none, none, none, none⟩ := by
  decide

/-- C5 (amended).  buildWhereClause emits exactly one condition per active
field — where role, isActive and the four date bounds are active when
present, and search and emailDomain additionally require a non-empty string —
joined with AND in the fixed order role, isActive, search, emailDomain,
createdFrom, createdTo, updatedFrom, updatedTo, with positional placeholders
numbered from 1 and incremented once per bound value, and with inclusive
date-range bounds. -/
theorem whereClause_matches_spec (f : FilterParams) :
    buildWhereClause (some f) = specWhereClause f :=
  whereClause_closed f

/-- C10.  For every filter, the expression returned by buildWhereClause is
empty exactly when the argument list is empty, and its placeholder indices
are exactly 1 through the number of arguments, in order, each appearing once,
except the search argument's index which appears twice inside its single OR
condition — no dangling placeholder and no unused argument. -/
theorem whereClause_placeholder_invariant (f : FilterParams) :
    ((buildWhereClause (some f)).1 = "" ↔ (buildWhereClause (some f)).2 = []) ∧
    placeholderIndices (buildWhereClause (some f)).1
      = expectedPlaceholders (buildWhereClause (some f)).2.length
          (searchIdxOf f) := by
  obtain ⟨hph, hempty, -⟩ :=
    whereTags_facts (activeFields f) (activeFields_mem_sublists f)
  rw [whereClause_closed f]
  dsimp only
  have hlen := specArgs_length f
  constructor
  · rw [hempty]
    constructor
    · intro h
      rw [h] at hlen
      exact List.length_eq_zero.mp hlen
    · intro h
      rw [h] at hlen
      exact List.length_eq_zero.mp hlen.symm
  · rw [hph, hlen, searchIdxOf_align f]

theorem specArgs_get_search (f : FilterParams) (s : String)
    (h : f.search = some s) (hs : s ≠ "") :
    (specArgs f).get? ((match f.role with | some _ => 1 | none => 0)
        + (match f.isActive with | some _ => 1 | none => 0))
      = some (DBValue.str ("%" ++ s ++ "%")) := by
  have hb : (s != "") = true := by simpa using hs
  obtain ⟨r, a, s2, d, cf, ct, uf, ut⟩ := f
  cases h
  rcases r with _ | r <;> rcases a with _ | a <;>
    simp [specArgs, hb]

/-- C2 counterexample.  The whitespace-only search string consists only of
whitespace, so it trims to empty; yet buildWhereClause appends the search
condition (the code tests only for the empty string, it never trims), binding
the wildcard pattern around the raw blank. -/
theorem search_trim_counterexample :
    (" ").data.all Char.isWhitespace = true ∧ (" ") ≠ "" ∧
    buildWhereClause (some ⟨none, none, some " ", none, none, none, none, none⟩)
      = (searchCond 1, [DBValue.str "% %"]) := by
  exact ⟨by decide, by decide, by decide⟩

/-- C2 (amended).  When the search field is present: an empty search string
appends no search condition; a non-empty one (whitespace included) appends
exactly one condition, the case-insensitive OR across full_name and email
re-using one placeholder for both sides, whose bound value is the search
string wrapped as a wildcard. -/
theorem search_condition_spec (f : FilterParams) (s : String)
    (h : f.search = some s) :
    buildWhereClause (some f) = (goJoin " AND " (specConds f), specArgs f) ∧
    (s = "" → (specConds f).filter isSearchCond = []) ∧
    (s ≠ "" → ∃ n,
      (specConds f).filter isSearchCond = [searchCond n] ∧
      (specArgs f).get? (n - 1)
          = some (DBValue.str ("%" ++ s ++ "%"))) := by
  obtain ⟨-, -, hfilter⟩ :=
    whereTags_facts (activeFields f) (activeFields_mem_sublists f)
  refine ⟨whereClause_closed f, ?_, ?_⟩
  · intro hs
    subst hs
    show (condsOfTags (activeFields f)).filter isSearchCond = []
    rw [hfilter]
    have hnone : searchIdxOfTags (activeFields f) = none := by
      rw [← searchIdxOf_align]
      simp [searchIdxOf, h]
    rw [hnone]
  · intro hs
    have hb : (s != "") = true := by simpa using hs
    have hidx : searchIdxOf f
        = some ((match f.role with | some _ => 1 | none => 0)
            + (match f.isActive with | some _ => 1 | none => 0) + 1) := by
      simp [searchIdxOf, h, hb]
    refine ⟨(match f.role with | some _ => 1 | none => 0)
        + (match f.isActive with | some _ => 1 | none => 0) + 1, ?_, ?_⟩
    · show (condsOfTags (activeFields f)).filter isSearchCond = _
      rw [hfilter, ← searchIdxOf_align, hidx]
    · simpa using specArgs_get_search f s h hs

/-- The totalPages value as GetAllUsers computes it: the truncating integer
division of total + pageSize - 1 by pageSize, floored at 1. -/
def totalPagesOf (total ps : Int) : Int :=
  if (total + ps - 1).tdiv ps = 0 then 1 else (total + ps - 1).tdiv ps

/-- For nonnegative totals and positive page sizes, totalPagesOf is the least
page count n with 1 <= n and total <= n * pageSize, i.e. the ceiling of
total / pageSize floored at 1. -/
theorem totalPages_ceil (total ps : Int) (ht : 0 ≤ total) (hp : 1 ≤ ps) :
    1 ≤ totalPagesOf total ps ∧
    total ≤ totalPagesOf total ps * ps ∧
    (∀ m : Int, 1 ≤ m → total ≤ m * ps → totalPagesOf total ps ≤ m) := by
  have hnn : (0:Int) ≤ total + ps - 1 := by omega
  have hps0 : (0:Int) < ps := by omega
  have htd : (total + ps - 1).tdiv ps = (total + ps - 1) / ps :=
    Int.tdiv_eq_ediv hnn (by omega)
  have hkey : ps * ((total + ps - 1) / ps) + (total + ps - 1) % ps
      = total + ps - 1 := Int.ediv_add_emod _ _
  have hr0 : 0 ≤ (total + ps - 1) % ps := Int.emod_nonneg _ (by omega)
  have hrlt : (total + ps - 1) % ps < ps := Int.emod_lt_of_pos _ hps0
  have hq0 : 0 ≤ (total + ps - 1) / ps := Int.ediv_nonneg hnn (le_of_lt hps0)
  unfold totalPagesOf
  rw [htd]
  by_cases hz : (total + ps - 1) / ps = 0
  · rw [if_pos hz]
    rw [hz] at hkey
    refine ⟨le_refl 1, ?_, fun m hm _ => hm⟩
    have htz : total = 0 := by linarith
    linarith
  · rw [if_neg hz]
    have hq1 : 1 ≤ (total + ps - 1) / ps := by omega
    refine ⟨hq1, ?_, ?_⟩
    · have hc := mul_comm ((total + ps - 1) / ps) ps
      linarith
    · intro m hm hmt
      by_contra hc
      push_neg at hc
      have h1 : ps * (m + 1) ≤ ps * ((total + ps - 1) / ps) := by
        apply mul_le_mul_of_nonneg_left (by omega) (by omega)
      have h2 := mul_comm m ps
      linarith

/-- GetAllUsers with a store that answers both queries, on any filter and
sort, with a non-nil pagination of nonzero page size: the normal result, with
the metadata computed from total and the pagination input. -/
theorem getAllUsers_const_ok (total : Int) (users : List User)
    (filters : Option FilterParams) (sort : Option SortParams)
    (pg : PaginationParams) (h : pg.pageSize ≠ 0) :
    GetAllUsers (fun _ _ => Except.ok total) (fun _ _ => Except.ok users)
        filters sort (some pg)
      = RepoResult.ok ⟨users,
          ⟨pg.page, pg.pageSize, total, totalPagesOf total pg.pageSize,
           decide (pg.page < totalPagesOf total pg.pageSize),
           decide (pg.page > 1)⟩⟩ := by
  simp only [GetAllUsers, totalPagesOf]
  rw [if_neg h]

/-- The data query issued when the filter contributes nothing and the sort is
absent: no WHERE clause, default ordering, and the two positional parameters
for LIMIT and OFFSET. -/
def defaultDataQuery : String :=
  "SELECT id, email, full_name, phone, role, is_active, created_at, updated_at FROM users ORDER BY created_at ASC LIMIT $1 OFFSET $2"

/-- When the filter expression is empty, GetAllUsers consults the store with
exactly the plain count query and the default data query. -/
theorem getAllUsers_no_where
    (cnt : String → List DBValue → Except String Int)
    (sel : String → List DBValue → Except String (List User))
    (filters : Option FilterParams)
    (hW : buildWhereClause filters = ("", []))
    (pg : PaginationParams) (h : pg.pageSize ≠ 0) (total : Int)
    (users : List User)
    (hcnt : cnt "SELECT COUNT(*) FROM users" [] = Except.ok total)
    (hsel : sel defaultDataQuery [DBValue.int pg.pageSize, DBValue.int pg.offset]
        = Except.ok users) :
    GetAllUsers cnt sel filters none (some pg)
      = RepoResult.ok ⟨users,
          ⟨pg.page, pg.pageSize, total, totalPagesOf total pg.pageSize,
           decide (pg.page < totalPagesOf total pg.pageSize),
           decide (pg.page > 1)⟩⟩ := by
  have ht1 : toString (1 : Nat) = "1" := rfl
  have ht2 : toString (2 : Nat) = "2" := rfl
  simp only [defaultDataQuery] at hsel
  simp only [GetAllUsers, hW, buildOrderClause, List.length_nil, ht1, ht2,
             Nat.zero_add, Nat.reduceAdd, String.reduceAppend, bne_self_eq_false,
             Bool.false_eq_true, if_false, List.nil_append]
  rw [hcnt, hsel]
  simp only [totalPagesOf]
  rw [if_neg h]

/-- C3 counterexample.  GetAllUsers called with filter, sort and pagination
all absent dereferences the nil pagination pointer (user_repo.go line 208)
even on a store that answers every query, instead of returning a normal
result. -/
theorem getAllUsers_nil_pagination_crash :
    GetAllUsers (fun _ _ => Except.ok 0) (fun _ _ => Except.ok []) none none none
      = RepoResult.crash
          "runtime error: invalid memory address or nil pointer dereference" :=
  rfl

/-- C3 (amended).  GetAllUsers tolerates an absent filter (no WHERE
constraint) and an absent sort (default ordering) and returns a normal result
for any pagination with nonzero page size — the store oracles below fail on
any query with a WHERE clause or any data query other than the
default-ordered one, so the normal result certifies both defaults; but when
the pagination input is also absent, the call crashes on a nil-pointer
dereference instead of using default paging. -/
theorem getAllUsers_nil_inputs :
    (∀ (total : Int) (users : List User) (pg : PaginationParams),
        pg.pageSize ≠ 0 →
        ∃ resp,
          GetAllUsers
              (fun q _ => if noWhere q then Except.ok total
                          else Except.error "unexpected WHERE")
              (fun q _ => if q = defaultDataQuery then Except.ok users
                          else Except.error "unexpected query")
              none none (some pg)
            = RepoResult.ok resp ∧ resp.data = users) ∧
    (∀ (total : Int) (users : List User),
        GetAllUsers (fun _ _ => Except.ok total) (fun _ _ => Except.ok users)
            none none none
          = RepoResult.crash
              "runtime error: invalid memory address or nil pointer dereference") := by
  refine ⟨?_, fun _ _ => rfl⟩
  intro total users pg h
  refine ⟨_, getAllUsers_no_where _ _ none rfl pg h total users ?_ ?_, rfl⟩
  · have hok : noWhere "SELECT COUNT(*) FROM users" = true := by decide
    simp [hok]
  · simp

/-- Witness for C3 (amended): concrete pagination 2 of page size 10. -/
theorem getAllUsers_nil_inputs_witness :
    ∃ resp,
      GetAllUsers
          (fun q _ => if noWhere q then Except.ok 7
                      else Except.error "unexpected WHERE")
          (fun q _ => if q = defaultDataQuery then Except.ok []
                      else Except.error "unexpected query")
          none none (some ⟨2, 10, 10⟩)
        = RepoResult.ok resp ∧ resp.data = [] :=
  getAllUsers_nil_inputs.1 7 [] ⟨2, 10, 10⟩ (by decide)

/-- C6.  A filter with zero set fields yields the empty expression and empty
argument list, as does an absent filter; and GetAllUsers then omits the WHERE
clause entirely from both the count query and the data query — the store
oracles fail on any query containing WHERE, so the normal result certifies
the omission. -/
theorem whereClause_zero_fields (f : FilterParams)
    (h1 : f.role = none) (h2 : f.isActive = none) (h3 : f.search = none)
    (h4 : f.emailDomain = none) (h5 : f.createdFrom = none)
    (h6 : f.createdTo = none) (h7 : f.updatedFrom = none)
    (h8 : f.updatedTo = none) :
    buildWhereClause (some f) = ("", []) ∧
    buildWhereClause none = ("", []) ∧
    (∀ (total : Int) (users : List User) (pg : PaginationParams),
        pg.pageSize ≠ 0 →
        ∃ resp,
          GetAllUsers
              (fun q _ => if noWhere q then Except.ok total
                          else Except.error "unexpected WHERE")
              (fun q _ => if noWhere q then Except.ok users
                          else Except.error "unexpected WHERE")
              (some f) none (some pg)
            = RepoResult.ok resp) := by
  obtain ⟨r, a, s, d, cf, ct, uf, ut⟩ := f
  cases h1; cases h2; cases h3; cases h4; cases h5; cases h6; cases h7; cases h8
  refine ⟨rfl, rfl, ?_⟩
  intro total users pg h
  refine ⟨_, getAllUsers_no_where _ _
      (some ⟨none, none, none, none, none, none, none, none⟩) rfl pg h
      total users ?_ ?_⟩
  · have hok : noWhere "SELECT COUNT(*) FROM users" = true := by decide
    simp [hok]
  · have hok : noWhere defaultDataQuery = true := by decide
    simp [hok]

/-- Witness for C6: the all-absent filter with concrete pagination. -/
theorem whereClause_zero_fields_witness :
    buildWhereClause (some ⟨none, none, none, none, none, none, none, none⟩)
      = ("", []) ∧
    buildWhereClause none = ("", []) ∧
    ∃ resp,
      GetAllUsers
          (fun q _ => if noWhere q then Except.ok 5
                      else Except.error "unexpected WHERE")
          (fun q _ => if noWhere q then Except.ok []
                      else Except.error "unexpected WHERE")
          (some ⟨none, none, none, none, none, none, none, none⟩) none
          (some ⟨1, 10, 0⟩)
        = RepoResult.ok resp :=
  ⟨(whereClause_zero_fields ⟨none, none, none, none, none, none, none, none⟩
      rfl rfl rfl rfl rfl rfl rfl rfl).1,
   (whereClause_zero_fields ⟨none, none, none, none, none, none, none, none⟩
      rfl rfl rfl rfl rfl rfl rfl rfl).2.1,
   (whereClause_zero_fields ⟨none, none, none, none, none, none, none, none⟩
      rfl rfl rfl rfl rfl rfl rfl rfl).2.2 5 [] ⟨1, 10, 0⟩ (by decide)⟩

/-- C8.  For every nonnegative total, page at least 1 and page size in
1..100, the pagination metadata computed by GetAllUsers carries the page,
page size and total through, sets totalPages to the least n ≥ 1 with
total ≤ n * pageSize (the ceiling of total / pageSize with a floor of 1),
and sets hasNext iff page < totalPages and hasPrev iff page > 1; in
particular total 0 gives totalPages 1 with neither flag, and total 12 with
page size 5 on page 3 gives totalPages 3, hasNext false, hasPrev true. -/
theorem pagination_metadata_spec :
    (∀ (total : Int) (users : List User) (filters : Option FilterParams)
        (sort : Option SortParams) (page pageSize offset : Int),
      0 ≤ total → 1 ≤ page → 1 ≤ pageSize → pageSize ≤ 100 →
      ∃ resp,
        GetAllUsers (fun _ _ => Except.ok total) (fun _ _ => Except.ok users)
            filters sort (some ⟨page, pageSize, offset⟩)
          = RepoResult.ok resp ∧
        resp.pagination.page = page ∧
        resp.pagination.pageSize = pageSize ∧
        resp.pagination.total = total ∧
        1 ≤ resp.pagination.totalPages ∧
        total ≤ resp.pagination.totalPages * pageSize ∧
        (∀ m : Int, 1 ≤ m → total ≤ m * pageSize →
            resp.pagination.totalPages ≤ m) ∧
        (resp.pagination.hasNext = true ↔ page < resp.pagination.totalPages) ∧
        (resp.pagination.hasPrev = true ↔ 1 < page)) ∧
    GetAllUsers (fun _ _ => Except.ok 0) (fun _ _ => Except.ok []) none none
        (some ⟨1, 5, 0⟩)
      = RepoResult.ok ⟨[], ⟨1, 5, 0, 1, false, false⟩⟩ ∧
    GetAllUsers (fun _ _ => Except.ok 12) (fun _ _ => Except.ok []) none none
        (some ⟨3, 5, 10⟩)
      = RepoResult.ok ⟨[], ⟨3, 5, 12, 3, false, true⟩⟩ := by
  refine ⟨?_, by decide, by decide⟩
  intro total users filters sort page pageSize offset ht hpage hps1 hps100
  have h0 : (⟨page, pageSize, offset⟩ : PaginationParams).pageSize ≠ 0 := by
    show pageSize ≠ 0
    omega
  obtain ⟨hc1, hc2, hc3⟩ := totalPages_ceil total pageSize ht hps1
  refine ⟨_, getAllUsers_const_ok total users filters sort
      ⟨page, pageSize, offset⟩ h0, rfl, rfl, rfl, hc1, hc2, hc3, ?_, ?_⟩
  · constructor
    · exact of_decide_eq_true
    · exact decide_eq_true
  · constructor
    · exact of_decide_eq_true
    · exact decide_eq_true

/-- Witness for C8: total 12, page size 5, page 3. -/
theorem pagination_metadata_spec_witness :
    ∃ resp,
      GetAllUsers (fun _ _ => Except.ok 12) (fun _ _ => Except.ok []) none none
          (some ⟨3, 5, 10⟩)
        = RepoResult.ok resp ∧
      resp.pagination.page = 3 ∧
      resp.pagination.pageSize = 5 ∧
      resp.pagination.total = 12 ∧
      1 ≤ resp.pagination.totalPages ∧
      (12:Int) ≤ resp.pagination.totalPages * 5 ∧
      (∀ m : Int, 1 ≤ m → (12:Int) ≤ m * 5 →
          resp.pagination.totalPages ≤ m) ∧
      (resp.pagination.hasNext = true ↔ 3 < resp.pagination.totalPages) ∧
      (resp.pagination.hasPrev = true ↔ (1:Int) < 3) :=
  pagination_metadata_spec.1 12 [] none none 3 5 10 (by decide) (by decide)
    (by decide) (by decide)


/-- Witness for C2 (amended): a concrete filter with role present and the
search string jo. -/
theorem search_condition_spec_witness :
    buildWhereClause (some ⟨some "admin", none, some "jo", none, none, none, none, none⟩)
      = (goJoin " AND " (specConds ⟨some "admin", none, some "jo", none, none, none, none, none⟩),
         specArgs ⟨some "admin", none, some "jo", none, none, none, none, none⟩) ∧
    (("jo" : String) = "" →
      (specConds ⟨some "admin", none, some "jo", none, none, none, none, none⟩).filter isSearchCond
        = []) ∧
    (("jo" : String) ≠ "" → ∃ n,
      (specConds ⟨some "admin", none, some "jo", none, none, none, none, none⟩).filter isSearchCond
          = [searchCond n] ∧
      (specArgs ⟨some "admin", none, some "jo", none, none, none, none, none⟩).get? (n - 1)
          = some (DBValue.str ("%" ++ "jo" ++ "%"))) :=
  search_condition_spec ⟨some "admin", none, some "jo", none, none, none, none, none⟩ "jo" rfl

end UserService
